import Mathlib

/-!
Verification of the template rendering and validation engine of the
`mouth` service (files `mouth/__init__.py` and `mouth/service.py`).

The engine is shallowly embedded: Python strings are Lean `String`s
(manipulated through their `List Char` data), the scalar values of a
variable-binding map are the inductive `PyValue`, the regular-expression
recognizers `_re_data`, `_re_tpl` and `_re_if_else` are hand-compiled
scanners implementing the exact backtracking order of the source
patterns, and a Python exception escaping a routine is an
`Except.error` value of the `Err` type.  Recursion of the template
resolver is measured by an explicit stack budget (`Nat` fuel): Python's
recursion either returns, raises, or exhausts the interpreter stack, and
the fuel exhaustion case models the latter.
-/

/-- A Python exception escaping the rendering code.  Each constructor
records the concrete raise site it models. -/
inductive Err where
  /-- `RecursionError`: the interpreter stack is exhausted by unbounded
  recursion of `_generate_sms` / `_generate_email`. -/
  | recursionLimit
  /-- `AttributeError` at `mouth/__init__.py:277`: the class constants
  `COND_TYPE`, `COND_IF_CONTENT`, `COND_ELSE_CONTENT` are referenced but
  never defined, so any conditional with an operator clause raises. -/
  | condAttr
  /-- `TypeError`: either `NoneType(mValue)` during value coercion
  (`__init__.py:269`, `service.py:222` when the bound value is `None`),
  or an ordering comparison between non-ordinal Python 3 types. -/
  | typeError
  /-- `TypeError` («not enough arguments for format string») from a
  `%`-format whose placeholders outnumber its arguments
  (`service.py:303`). -/
  | fmtError
  /-- `KeyError` from indexing a dict with an absent key. -/
  | keyError
deriving DecidableEq, Repr

/-- A scalar value of a variable-binding map (spec section 3: string,
number, boolean or null; numbers are modelled by `Int`). -/
inductive PyValue where
  | str (s : String)
  | int (n : Int)
  | bool (b : Bool)
  | null
deriving DecidableEq, Repr

/-- Python `str()` on a binding value. -/
def pyStr : PyValue → String
  | .str s => s
  | .int n => toString n
  | .bool b => if b then "True" else "False"
  | .null => "None"

/-- Python truthiness of a binding value. -/
def truthy : PyValue → Bool
  | .str s => !(s == "")
  | .int n => !(n == 0)
  | .bool b => b
  | .null => false

/-- Modelled from the spec: `StrHelper.to_bool` (RestOC) and
`strings.to_bool` are external pip dependencies whose code is not under
`src/`; spec section 4.3 describes them as a lenient parser sending
`"true"/"1"/"yes"` etc. to `true` and everything else to `false`. -/
def to_bool (s : String) : Bool :=
  ["true", "1", "yes", "y", "t", "on"].contains s

/-- Python `int()` on a string: surrounding whitespace, an optional
sign, then a non-empty digit run; anything else raises `ValueError`
(returned as `none`).  Underscore grouping and non-ASCII digits are not
modelled. -/
def pyInt (s : String) : Option Int :=
  let ws := fun (c : Char) => c == ' ' || c == '\t' || c == '\n' || c == '\r'
  let l := ((s.data.dropWhile ws).reverse.dropWhile ws).reverse
  let sl : Int × List Char :=
    match l with
    | '-' :: r => (-1, r)
    | '+' :: r => (1, r)
    | _ => (1, l)
  if sl.2 ≠ [] ∧ sl.2.all (fun c => c.isDigit) then
    some (sl.1 * (Int.ofNat (sl.2.foldl (fun acc c => acc * 10 + (c.toNat - '0'.toNat)) 0)))
  else
    none

/-- The numeric view Python uses for `==`/ordering between `int` and
`bool` (`bool` is a subclass of `int`). -/
def numView : PyValue → Option Int
  | .int n => some n
  | .bool b => some (if b then 1 else 0)
  | _ => none

/-- Python `==` between binding values: numeric kinds compare by value,
strings by equality, `None` only equals `None`; cross-kind comparison is
`False` and never raises. -/
def pyEq (x y : PyValue) : Bool :=
  match numView x, numView y with
  | some a, some b => a == b
  | _, _ =>
    match x, y with
    | .str a, .str b => a == b
    | .null, .null => true
    | _, _ => false

/-- The `Mouth._conditional` lambda table applied to two runtime values,
with Python 3 semantics: `==`/`!=` are total; `<`,`<=`,`>`,`>=` order
two numerics or two strings and raise `TypeError` otherwise. -/
def conditional (op : String) (x y : PyValue) : Except Err Bool :=
  if op == "==" then .ok (pyEq x y)
  else if op == "!=" then .ok (!(pyEq x y))
  else
    match numView x, numView y with
    | some a, some b =>
      .ok (if op == "<" then decide (a < b)
           else if op == "<=" then !(decide (b < a))
           else if op == ">" then decide (b < a)
           else !(decide (a < b)))
    | _, _ =>
      match x, y with
      | .str a, .str b =>
        .ok (if op == "<" then decide (a < b)
             else if op == "<=" then !(decide (b < a))
             else if op == ">" then decide (b < a)
             else !(decide (a < b)))
      | _, _ => .error .typeError

/-- Outcome of coercing the literal `VALUE` text to the runtime type of
the bound variable (`__init__.py:255-274`, `service.py:207-230`). -/
inductive CoerceRes where
  | ok (v : PyValue)
  /-- `ValueError`: caught by the source, which substitutes the
  «HAS INVALID VALUE» marker. -/
  | valueErr
  /-- `TypeError` from `NoneType(mValue)`: NOT caught (the `except`
  clause only catches `ValueError`), so it escapes the render. -/
  | typeErr
deriving DecidableEq, Repr

/-- `oVarType = type(variables[v]); bool → to_bool, str → unchanged,
int → int(), NoneType → NoneType(mValue)` (raises `TypeError`). -/
def coerce_value (varVal : PyValue) (s : String) : CoerceRes :=
  match varVal with
  | .bool _ => .ok (.bool (to_bool s))
  | .str _ => .ok (.str s)
  | .int _ =>
    match pyInt s with
    | some n => .ok (.int n)
    | none => .valueErr
  | .null => .typeErr

/-- A variable binding map (`variables`), as an association list. -/
abbrev Bindings := List (String × PyValue)

/-- `[A-Za-z_]` — the character class of variable and template names. -/
def isNameChar (c : Char) : Bool :=
  (decide ('A' ≤ c) && decide (c ≤ 'Z')) ||
  (decide ('a' ≤ c) && decide (c ≤ 'z')) ||
  c == '_'

/-- `[\t ]` — the blank class used inside the conditional pattern. -/
def isBlank (c : Char) : Bool :=
  c == ' ' || c == '\t'

/-- Scanner for `_re_data = \{([A-Za-z_]+)\}`: Python `findall` moves
left to right, a failed attempt advances one character, a successful
match resumes after its end.  The fuel equals the initial length: every
step strictly shortens the input, so it never runs out. -/
def findDataAux : Nat → List Char → List (List Char)
  | 0, _ => []
  | fuel + 1, l =>
    match l with
    | [] => []
    | c :: rest =>
      if c == '\x7b' then
        let nm := rest.takeWhile isNameChar
        match rest.dropWhile isNameChar with
        | '\x7d' :: rest2 =>
          if nm ≠ [] then nm :: findDataAux fuel rest2 else findDataAux fuel rest
        | _ => findDataAux fuel rest
      else
        findDataAux fuel rest

/-- `cls._re_data.findall(content)`. -/
def re_data_findall (s : String) : List String :=
  (findDataAux s.data.length s.data).map String.mk

/-- Scanner for `_re_tpl = \#([A-Za-z_]+)\#`, same discipline. -/
def findTplAux : Nat → List Char → List (List Char)
  | 0, _ => []
  | fuel + 1, l =>
    match l with
    | [] => []
    | c :: rest =>
      if c == '#' then
        let nm := rest.takeWhile isNameChar
        match rest.dropWhile isNameChar with
        | '#' :: rest2 =>
          if nm ≠ [] then nm :: findTplAux fuel rest2 else findTplAux fuel rest
        | _ => findTplAux fuel rest
      else
        findTplAux fuel rest

/-- `cls._re_tpl.findall(content)`. -/
def re_tpl_findall (s : String) : List String :=
  (findTplAux s.data.length s.data).map String.mk

/-- Python `str.replace(old, new)`: every non-overlapping occurrence,
left to right, without rescanning the replacement text.  Fuel equals the
input length; each step strictly shortens the input (the patterns built
by the source are never empty; an empty pattern is treated as
matchless). -/
def replAux : Nat → List Char → List Char → List Char → List Char
  | 0, l, _, _ => l
  | fuel + 1, l, pat, rep =>
    match l with
    | [] => []
    | c :: rest =>
      if pat ≠ [] ∧ pat.isPrefixOf l then
        rep ++ replAux fuel (l.drop pat.length) pat rep
      else
        c :: replAux fuel rest pat rep

/-- `content.replace(old, new)` on strings. -/
def strReplace (s pat rep : String) : String :=
  String.mk (replAux s.data.length s.data pat.data rep.data)

/-- The capture groups of one `_re_if_else` match, plus the full
matched text (`group(0)`).  Pattern (with `re.DOTALL`):
`\[[\t ]*if[\t ]+([A-Za-z_]+)(?:[\t ]+(==|<|<=|>|>=|!=)[\t ]+([^\]]+))?[\t ]*\]`
`\n?(.+?)\n?(?:\[[\t ]*else[\t ]*\]\n?(.+?)\n?)?\[[\t ]*fi[\t ]*\]`. -/
structure IfMatch where
  group0 : List Char
  name : List Char
  test : Option (List Char)
  value : Option (List Char)
  ifContent : List Char
  elseContent : Option (List Char)
deriving DecidableEq, Repr

/-- The ordered alternation `(==|<|<=|>|>=|!=)`.  `<` is tried before
`<=`, but is always followed by `[\t ]+` in the pattern, so on input
`<=` the one-character branch fails at the blank and the engine
backtracks to `<=`; this collapses to the committed two-character
lookahead below (same for `>` / `>=`). -/
def parseOp : List Char → Option (List Char × List Char)
  | '=' :: '=' :: r => some (['=', '='], r)
  | '<' :: '=' :: r => some (['<', '='], r)
  | '<' :: r => some (['<'], r)
  | '>' :: '=' :: r => some (['>', '='], r)
  | '>' :: r => some (['>'], r)
  | '!' :: '=' :: r => some (['!', '='], r)
  | _ => none

/-- After the name: the optional clause `(?:[\t ]+OP[\t ]+([^\]]+))?`
followed by `[\t ]*\]`.  The greedy `[^\]]+` runs exactly to the next
`]` (it cannot cross one, and giving characters back to the following
`[\t ]*` never changes the position of the required `]`), and the clause
and no-clause alternatives start with disjoint characters after the
blank run, so the committed parse below is exact — with one backtracking
case spelled out: when the blank run after `OP` is followed directly by
`]`, the greedy `[\t ]+` gives its last blank back to `[^\]]+`, so the
clause still matches with that single blank as `VALUE` provided at
least one blank is kept (a run of length at least two). -/
def parseAfterName (l : List Char) :
    Option (Option (List Char) × Option (List Char) × List Char) :=
  let l1 := l.dropWhile isBlank
  let clause : Option (Option (List Char) × Option (List Char) × List Char) :=
    if l.takeWhile isBlank = [] then none
    else
      match parseOp l1 with
      | none => none
      | some (op, l2) =>
        if l2.takeWhile isBlank = [] then none
        else
          let l3 := l2.dropWhile isBlank
          let v := l3.takeWhile (fun c => !(c == ']'))
          if v = [] then
            match l3, (l2.takeWhile isBlank).reverse with
            | ']' :: r, b1 :: _ :: _ => some (some op, some [b1], r)
            | _, _ => none
          else
            match l3.dropWhile (fun c => !(c == ']')) with
            | ']' :: r => some (some op, some v, r)
            | _ => none
  match clause with
  | some x => some x
  | none =>
    match l1 with
    | ']' :: r => some (none, none, r)
    | _ => none

/-- The head `\[[\t ]*if[\t ]+([A-Za-z_]+)` plus `parseAfterName`.
Character classes of adjacent pieces are disjoint, so maximal-munch
runs are exact. -/
def parseIfHead (l : List Char) :
    Option (List Char × Option (List Char) × Option (List Char) × List Char) :=
  match l with
  | '[' :: l1 =>
    match l1.dropWhile isBlank with
    | 'i' :: 'f' :: l3 =>
      if l3.takeWhile isBlank = [] then none
      else
        let l4 := l3.dropWhile isBlank
        let nm := l4.takeWhile isNameChar
        if nm = [] then none
        else
          match parseAfterName (l4.dropWhile isNameChar) with
          | some (t, v, rest) => some (nm, t, v, rest)
          | none => none
    | _ => none
  | _ => none

/-- `\[[\t ]*else[\t ]*\]`. -/
def parseElseTok : List Char → Option (List Char)
  | '[' :: r =>
    match r.dropWhile isBlank with
    | 'e' :: 'l' :: 's' :: 'e' :: r2 =>
      match r2.dropWhile isBlank with
      | ']' :: r3 => some r3
      | _ => none
    | _ => none
  | _ => none

/-- `\[[\t ]*fi[\t ]*\]`. -/
def parseFiTok : List Char → Option (List Char)
  | '[' :: r =>
    match r.dropWhile isBlank with
    | 'f' :: 'i' :: r2 =>
      match r2.dropWhile isBlank with
      | ']' :: r3 => some r3
      | _ => none
    | _ => none
  | _ => none

/-- The alternatives of a greedy `\n?`, in preference order (consume
first). -/
def optNl (l : List Char) : List (List Char) :=
  match l with
  | '\n' :: r => [r, l]
  | _ => [l]

/-- The candidate splits of a lazy `(.+?)` under `re.DOTALL`: non-empty
prefixes in ascending length order (shortest preferred). -/
def splits1 : List Char → List (List Char × List Char)
  | [] => []
  | c :: r => ([c], r) :: (splits1 r).map (fun p => (c :: p.1, p.2))

/-- The tail of the pattern after the closing `]` of the head:
`\n?(.+?)\n?(?:\[else\]\n?(.+?)\n?)?\[fi\]`, searched in exact
backtracking preference order: each `\n?` greedy, each `(.+?)` lazy,
the optional else-group greedy (present before absent).  Returns the
consequent, the optional alternate, and the remainder. -/
def matchTail (rest0 : List Char) :
    Option (List Char × Option (List Char) × List Char) :=
  (optNl rest0).findSome? fun r1 =>
    (splits1 r1).findSome? fun cs =>
      (optNl cs.2).findSome? fun r3 =>
        match
          (match parseElseTok r3 with
           | some r4 =>
             (optNl r4).findSome? fun r5 =>
               (splits1 r5).findSome? fun es =>
                 (optNl es.2).findSome? fun r7 =>
                   (parseFiTok r7).map fun r8 => (cs.1, some es.1, r8)
           | none => none)
        with
        | some m => some m
        | none => (parseFiTok r3).map fun r8 => (cs.1, none, r8)

/-- Attempt one `_re_if_else` match anchored at the current position;
returns the match and the remainder of the text. -/
def matchIfAt (l : List Char) : Option (IfMatch × List Char) :=
  match parseIfHead l with
  | none => none
  | some (nm, t, v, rest0) =>
    match matchTail rest0 with
    | none => none
    | some (cons, els, rest) =>
      some ({ group0 := l.take (l.length - rest.length), name := nm,
              test := t, value := v, ifContent := cons,
              elseContent := els }, rest)

/-- `finditer` scan: left to right, a failed position advances one
character, a match resumes after its end (non-overlapping).  Fuel is the
initial length; every step strictly shortens the input. -/
def finditerAux : Nat → List Char → List IfMatch
  | 0, _ => []
  | fuel + 1, l =>
    match l with
    | [] => []
    | _ :: rest =>
      match matchIfAt l with
      | some (m, r) => m :: finditerAux fuel r
      | none => finditerAux fuel rest

/-- `cls._re_if_else.finditer(content)`, as the list of its matches. -/
def re_if_else_finditer (s : String) : List IfMatch :=
  finditerAux s.data.length s.data

/-- The class attribute `_special_conditionals` (`$EMPTY` ↦ `''`,
`$NULL` ↦ `None`), in dict iteration order. -/
def special_conditionals : List (String × Option String) :=
  [("$EMPTY", some ""), ("$NULL", none)]

/-- `for n, v in cls._special_conditionals.items(): if mValue == n:
mValue = v`. -/
def apply_specials (m : Option String) : Option String :=
  special_conditionals.foldl (fun m nv => if m = some nv.1 then nv.2 else m) m

/-- The variable loop of `_generate_content` (`__init__.py:211-215`,
`service.py:156-165`): iterate the names `findall` produced from the
original content, replacing every occurrence of `{name}` in the
evolving string.  `missing` is the marker for an unbound name; by the
`x and y or z` idiom the marker is also substituted when the bound
value's `str()` form is empty. -/
def vars_loop (missing : String → String) (vars : Bindings) :
    List String → String → String
  | [], content => content
  | sVar :: rest, content =>
    vars_loop missing vars rest
      (strReplace content ("\x7b" ++ sVar ++ "\x7d")
        (match vars.lookup sVar with
         | some v => if pyStr v == "" then missing sVar else pyStr v
         | none => missing sVar))

/-- `'!!!{%s} does not exist!!!' % sVar` (`__init__.py:215`). -/
def missing_var_marker (sVar : String) : String :=
  "!!!\x7b" ++ sVar ++ "\x7d does not exist!!!"

/-- `'!!!{%s}!!!' % sVar` (`service.py:164`). -/
def srv_missing_var_marker (sVar : String) : String :=
  "!!!\x7b" ++ sVar ++ "\x7d!!!"

/-- The variable-substitution pass of `__init__.py`'s
`_generate_content`. -/
def generate_content_vars (content : String) (vars : Bindings) : String :=
  vars_loop missing_var_marker vars (re_data_findall content) content

/-- The variable-substitution pass of `service.py`'s
`_generate_content`. -/
def srv_generate_content_vars (content : String) (vars : Bindings) : String :=
  vars_loop srv_missing_var_marker vars (re_data_findall content) content

/-- The body of `__init__.py`'s conditional loop for one match
(`__init__.py:218-286`).  In the branch with an operator clause the
code reaches `cls._conditional[lGroups[cls.COND_TYPE]]` at line 277;
`COND_TYPE` is defined nowhere in the file (nor is the `iGroups` name
used at line 281), so that branch raises `AttributeError` whenever the
variable is bound and the value coercion did not already divert to a
marker. -/
def generate_content_cond_step (vars : Bindings) (content : String)
    (m : IfMatch) : Except Err String :=
  let sReplace := String.mk m.group0
  match m.test, m.value with
  | none, none =>
    let bPassed :=
      match vars.lookup (String.mk m.name) with
      | some v => truthy v
      | none => false
    let sIf := String.mk m.ifContent
    let sNew :=
      if bPassed && !(sIf == "") then sIf
      else
        match m.elseContent with
        | some e => if String.mk e == "" then "" else String.mk e
        | none => ""
    .ok (strReplace content sReplace sNew)
  | _, _ =>
    let mValue := apply_specials (m.value.map String.mk)
    match vars.lookup (String.mk m.name) with
    | none =>
      .ok (strReplace content sReplace
        ("INVALID VARIABLE (" ++ String.mk m.name ++ ") IN CONDITIONAL"))
    | some varVal =>
      match mValue with
      | some s' =>
        match coerce_value varVal s' with
        | .valueErr =>
          .ok (strReplace content sReplace
            (String.mk m.name ++ " HAS INVALID VALUE IN CONDITIONAL"))
        | .typeErr => .error .typeError
        | .ok _ => .error .condAttr
      | none => .error .condAttr

/-- The body of `service.py`'s conditional loop for one match
(`service.py:168-244`).  Modelled from the spec: the class constants
`COND_TYPE`, `COND_IF_CONTENT`, `COND_ELSE_CONTENT` are referenced by
`service.py` but defined nowhere under `src/`; they are modelled as the
evident indices 1, 3, 4 of the regex groups, making the branch dispatch
`cls._conditional[op](variables[name], mValue)` and select the
consequent/alternate groups, as spec section 4.3 describes. -/
def srv_generate_content_cond_step (vars : Bindings) (content : String)
    (m : IfMatch) : Except Err String :=
  let sReplace := String.mk m.group0
  match m.test, m.value with
  | none, none =>
    let bPassed :=
      match vars.lookup (String.mk m.name) with
      | some v => truthy v
      | none => false
    let sIf := String.mk m.ifContent
    let sNew :=
      if bPassed && !(sIf == "") then sIf
      else
        match m.elseContent with
        | some e => if String.mk e == "" then "" else String.mk e
        | none => ""
    .ok (strReplace content sReplace sNew)
  | _, _ =>
    let mValue := apply_specials (m.value.map String.mk)
    match vars.lookup (String.mk m.name) with
    | none =>
      .ok (strReplace content sReplace
        ("INVALID VARIABLE (" ++ String.mk m.name ++ ") IN CONDITIONAL"))
    | some varVal =>
      let coerced : Except Err (Option PyValue) :=
        match mValue with
        | none => .ok (some .null)
        | some s' =>
          match coerce_value varVal s' with
          | .ok v => .ok (some v)
          | .valueErr => .ok none
          | .typeErr => .error .typeError
      match coerced with
      | .error e => .error e
      | .ok none =>
        .ok (strReplace content sReplace
          (String.mk m.name ++ " HAS INVALID VALUE IN CONDITIONAL"))
      | .ok (some cv) =>
        match m.test with
        | none => .error .keyError
        | some op =>
          match conditional (String.mk op) varVal cv with
          | .error e => .error e
          | .ok bPassed =>
            let sIf := String.mk m.ifContent
            let sNew :=
              if bPassed && !(sIf == "") then sIf
              else
                match m.elseContent with
                | some e => if String.mk e == "" then "" else String.mk e
                | none => ""
            .ok (strReplace content sReplace sNew)

/-- The `for oConditional in finditer(content)` loop: the iterator was
built from the string as it stood after variable substitution, each
match's `group(0)` is replaced in the evolving string. -/
def cond_loop (step : String → IfMatch → Except Err String) :
    List IfMatch → String → Except Err String
  | [], content => .ok content
  | m :: ms, content => do
    let content ← step content m
    cond_loop step ms content

/-- `Mouth._generate_content` of `mouth/__init__.py` (lines 196-289). -/
def generate_content (content : String) (vars : Bindings) :
    Except Err String :=
  let content := generate_content_vars content vars
  cond_loop (generate_content_cond_step vars)
    (re_if_else_finditer content) content

/-- `Mouth._generate_content` of `mouth/service.py` (lines 138-247). -/
def srv_generate_content (content : String) (vars : Bindings) :
    Except Err String :=
  let content := srv_generate_content_vars content vars
  cond_loop (srv_generate_content_cond_step vars)
    (re_if_else_finditer content) content

/-- The persistence collaborator as seen by `__init__.py`'s resolver:
`Template.filter({'name': n}, raw=['_id'], limit=1)` and
`TemplateSMS.filter({'template': id, 'locale': l}, raw=['content'],
limit=1)`. -/
structure Store where
  tplId : String → Option Nat
  smsContent : Nat → String → Option String

/-- The embedded-template loop of `Mouth._generate_sms`
(`__init__.py:396-431`): `rec` is the recursive call at one less stack
budget; the cache (`templates`) is the shared dict threaded through the
recursion, and an entry is stored only after the recursive render of
the child returns.  One sharing subtlety of the source is modelled at
the call site: the callee's `if not templates:` guard
(`__init__.py:393`) tests falsiness, so a recursive call that receives
an *empty* dict rebinds it to a fresh one — the caller then sees none
of the child's insertions (only its own `templates[sTpl] = ...`),
whereas a non-empty dict stays shared and the caller sees them all. -/
def sms_tpl_loop (store : Store) (locale : String)
    (rec : String → List (String × String) →
      Except Err (String × List (String × String))) :
    List String → String → List (String × String) →
      Except Err (String × List (String × String))
  | [], content, templates => .ok (content, templates)
  | sTpl :: rest, content, templates => do
    let vt ←
      match templates.lookup sTpl with
      | some v => pure (v, templates)
      | none =>
        match store.tplId sTpl with
        | none =>
          let m := "!!!#" ++ sTpl ++ "# does not exist!!!"
          pure (m, (sTpl, m) :: templates)
        | some tid =>
          match store.smsContent tid locale with
          | none =>
            let m := "!!!#" ++ sTpl ++ "." ++ locale ++ "# does not exist!!!"
            pure (m, (sTpl, m) :: templates)
          | some child => do
            let rc ← rec child templates
            pure (rc.1, (sTpl, rc.1) ::
              (if templates = [] then templates else rc.2))
    sms_tpl_loop store locale rec rest
      (strReplace content ("#" ++ sTpl ++ "#") vt.1) vt.2

/-- `Mouth._generate_sms` of `mouth/__init__.py` (lines 375-437); the
`Nat` argument is the remaining stack budget. -/
def generate_sms (fuel : Nat) (store : Store) (locale : String)
    (vars : Bindings) (content : String)
    (templates : List (String × String)) :
    Except Err (String × List (String × String)) :=
  match fuel with
  | 0 => .error .recursionLimit
  | f + 1 => do
    let ct ← sms_tpl_loop store locale (generate_sms f store locale vars)
      (re_tpl_findall content) content templates
    let c ← generate_content ct.1 vars
    .ok (c, ct.2)

/-- `Mouth._checkTemplateContent`'s set accumulation (`lsTemplates.add`
/ `lsVariables.add`): Python set insertion, modelled as append-if-new
(iteration order of a Python set is arbitrary; the claim's order
insensitivity makes the choice immaterial). -/
def collect_insert (acc : List String) : List String → List String
  | [] => acc
  | x :: rest =>
    collect_insert (if acc.contains x then acc else acc ++ [x]) rest

/-- The field scan of `_checkTemplateContent` (`__init__.py:79-91`):
for each content-type name, collect the embedded-template and variable
references of that field; a missing field (`KeyError`) is skipped. -/
def collectRefs (content : List (String × String)) :
    List String → List String × List String → List String × List String
  | [], acc => acc
  | k :: rest, acc =>
    match content.lookup k with
    | none => collectRefs content rest acc
    | some text =>
      collectRefs content rest
        (collect_insert acc.1 (re_tpl_findall text),
         collect_insert acc.2 (re_data_findall text))

/-- The template half of `_checkTemplateContent`'s error list
(`__init__.py:96-110`): `Template.filter({'name': list(lsTemplates)})`
returns the subset of requested names that exist in `store` (names are
unique), and missing ones are reported only when the count check
fires. -/
def template_errors (store lsTemplates : List String) :
    List (String × String) :=
  if lsTemplates = [] then []
  else
    let lTemplates := lsTemplates.filter (fun s => store.contains s)
    if lTemplates.length ≠ lsTemplates.length then
      (lsTemplates.filter (fun s => !(lTemplates.contains s))).map
        (fun s => ("template", s))
    else []

/-- The variable half of `_checkTemplateContent`'s error list
(`__init__.py:112-120`): every collected variable not among the
template's declared variables. -/
def variable_errors (vars lsVariables : List String) :
    List (String × String) :=
  if lsVariables = [] then []
  else
    (lsVariables.filter (fun s => !(vars.contains s))).map
      (fun s => ("variable", s))

/-- `Mouth._checkTemplateContent` (`__init__.py:58-123`).  `store` is
the set of template names that exist. -/
def checkTemplateContent (store : List String)
    (content : List (String × String)) (names : List String)
    (vars : List String) : List (String × String) :=
  template_errors store (collectRefs content names ([], [])).1 ++
    variable_errors vars (collectRefs content names ([], [])).2

/-- Python `%`-formatting with `%s` placeholders and a single non-tuple
right operand (a list of the values actually available): a placeholder
with no remaining argument raises `TypeError` («not enough arguments for
format string»), leftover arguments raise `TypeError` as well. -/
def pyFormatAux : List Char → List String → Except Err (List Char)
  | [], [] => .ok []
  | [], _ :: _ => .error .fmtError
  | '%' :: 's' :: rest, a :: args => do
    let r ← pyFormatAux rest args
    .ok (a.data ++ r)
  | '%' :: 's' :: _, [] => .error .fmtError
  | c :: rest, args => do
    let r ← pyFormatAux rest args
    .ok (c :: r)

/-- `fmt % args` for `%s`-only format strings. -/
def pyFormat (fmt : String) (args : List String) : Except Err String :=
  (pyFormatAux fmt.data args).map String.mk

/-- The three email content fields, in the iteration order of
`for s in ['subject', 'text', 'html']`. -/
inductive Fld where
  | subject
  | text
  | html
deriving DecidableEq, Repr

/-- The Python name of a field. -/
def fldName : Fld → String
  | .subject => "subject"
  | .text => "text"
  | .html => "html"

/-- An email content dict: each key may be absent. -/
structure EmailDict where
  subject : Option String
  text : Option String
  html : Option String
deriving DecidableEq, Repr

/-- `dContent[s]` as a read (absent key ⇒ the caller raises
`KeyError`). -/
def dGet (d : EmailDict) : Fld → Option String
  | .subject => d.subject
  | .text => d.text
  | .html => d.html

/-- `dContent[s] = v`. -/
def dSet (d : EmailDict) : Fld → String → EmailDict
  | .subject, v => { d with subject := some v }
  | .text, v => { d with text := some v }
  | .html, v => { d with html := some v }

/-- One locale's content dict inside a `service.py` template record
(`dTemplate['locales'][locale]`): email fields and the sms body, each
possibly absent. -/
structure LocaleFields where
  subject : Option String
  text : Option String
  html : Option String
  sms : Option String

/-- A `service.py` template record (`Template.get(name, index='ui_name',
raw=True)`): the locales map. -/
structure SrvTemplate where
  locales : String → Option LocaleFields

/-- The persistence collaborator as seen by `service.py`'s resolver. -/
structure SrvStore where
  tpl : String → Option SrvTemplate

/-- The fill loop `for s in ['html', 'subject', 'text']` of
`service.py:326-331`: default each absent email field of the locale
dict to the `!!!#name.locale.field#!!!` marker.  (This loop reuses the
outer field variable `s`, leaving it equal to `'text'`.) -/
def fillFields (sTpl locale : String) (lf : LocaleFields) : LocaleFields :=
  { lf with
    html := some (lf.html.getD ("!!!#" ++ sTpl ++ "." ++ locale ++ ".html#!!!")),
    subject := some (lf.subject.getD ("!!!#" ++ sTpl ++ "." ++ locale ++ ".subject#!!!")),
    text := some (lf.text.getD ("!!!#" ++ sTpl ++ "." ++ locale ++ ".text#!!!")) }

/-- The embedded-template loop of `service.py`'s `_generate_email`
(lines 287-344) for one field.  The loop state carries the evolving
content dict, the shared cache, and the current value of the Python
loop variable `s`: the inner fill loop at line 326 overwrites `s`, so
after a template with locale content is resolved, the remaining
replacements and the final `_generate_content` call of this field
iteration read and write `dContent['text']` instead of the field being
processed.  A missing-template cache entry is built with
`'!!!#%s.%s#!!!' % sTpl` for `'subject'` (`service.py:303`): two
placeholders, one argument — `TypeError`. -/
def email_tpl_loop (store : SrvStore) (locale : String)
    (rec : EmailDict → List (String × EmailDict) →
      Except Err (EmailDict × List (String × EmailDict))) :
    List String → EmailDict → List (String × EmailDict) → Fld →
      Except Err (EmailDict × List (String × EmailDict) × Fld)
  | [], dContent, templates, s => .ok (dContent, templates, s)
  | sTpl :: rest, dContent, templates, s => do
    let ts ←
      match templates.lookup sTpl with
      | some _ => pure (templates, s)
      | none =>
        match store.tpl sTpl with
        | none => do
          let msub ← pyFormat "!!!#%s.%s#!!!" [sTpl]
          pure (((sTpl,
            ({ subject := some msub,
               text := some ("!!!#" ++ sTpl ++ "#!!!"),
               html := some ("!!!#" ++ sTpl ++ "#!!!") } : EmailDict)) ::
              templates), s)
        | some tpl =>
          match tpl.locales locale with
          | none =>
            let m := "!!!#" ++ sTpl ++ "." ++ locale ++ "#!!!"
            pure ((sTpl,
              ({ subject := some m, text := some m, html := some m } :
                EmailDict)) :: templates, s)
          | some lf => do
            let filled := fillFields sTpl locale lf
            let rc ← rec
              { subject := filled.subject, text := filled.text,
                html := filled.html } templates
            pure ((sTpl, rc.1) :: rc.2, Fld.text)
    match ts.1.lookup sTpl with
    | none => .error .keyError
    | some entry =>
      match dGet entry ts.2 with
      | none => .error .keyError
      | some val =>
        match dGet dContent ts.2 with
        | none => .error .keyError
        | some cur =>
          email_tpl_loop store locale rec rest
            (dSet dContent ts.2 (strReplace cur ("#" ++ sTpl ++ "#") val))
            ts.1 ts.2

/-- The field loop `for s in ['subject', 'text', 'html']` of
`service.py`'s `_generate_email` (lines 280-347): an absent field is
set to `'!!!%s missing!!!' % s` and skipped; a present field has its
embedded templates resolved and is then run through
`_generate_content` — both under the possibly clobbered loop
variable `s`. -/
def email_field_loop (store : SrvStore) (locale : String) (vars : Bindings)
    (rec : EmailDict → List (String × EmailDict) →
      Except Err (EmailDict × List (String × EmailDict))) :
    List Fld → EmailDict → List (String × EmailDict) →
      Except Err (EmailDict × List (String × EmailDict))
  | [], dContent, templates => .ok (dContent, templates)
  | fld :: rest, dContent, templates =>
    match dGet dContent fld with
    | none =>
      email_field_loop store locale vars rec rest
        (dSet dContent fld ("!!!" ++ fldName fld ++ " missing!!!")) templates
    | some cur => do
      let dts ← email_tpl_loop store locale rec (re_tpl_findall cur)
        dContent templates fld
      match dGet dts.1 dts.2.2 with
      | none => .error .keyError
      | some v => do
        let v ← srv_generate_content v vars
        email_field_loop store locale vars rec rest
          (dSet dts.1 dts.2.2 v) dts.2.1

/-- `Mouth._generate_email` of `mouth/service.py` (lines 249-350); the
`Nat` argument is the remaining stack budget.  (`clone(content)` gives
the copy value semantics the embedding has natively.) -/
def srv_generate_email (fuel : Nat) (store : SrvStore) (locale : String)
    (vars : Bindings) (content : EmailDict)
    (templates : List (String × EmailDict)) :
    Except Err (EmailDict × List (String × EmailDict)) :=
  match fuel with
  | 0 => .error .recursionLimit
  | f + 1 =>
    email_field_loop store locale vars (srv_generate_email f store locale vars)
      [Fld.subject, Fld.text, Fld.html] content templates

instance {e a : Type} [DecidableEq e] [DecidableEq a] :
    DecidableEq (Except e a) := fun x y =>
  match x, y with
  | .ok v, .ok w =>
    if h : v = w then .isTrue (by rw [h])
    else .isFalse (by intro hc; cases hc; exact h rfl)
  | .error v, .error w =>
    if h : v = w then .isTrue (by rw [h])
    else .isFalse (by intro hc; cases hc; exact h rfl)
  | .ok _, .error _ => .isFalse (by intro hc; cases hc)
  | .error _, .ok _ => .isFalse (by intro hc; cases hc)

theorem takeWhile_append_of (p : Char → Bool) (l : List Char) (d : Char)
    (r : List Char) (h : ∀ c ∈ l, p c = true) (hd : p d = false) :
    (l ++ d :: r).takeWhile p = l := by
  induction l with
  | nil => simp [List.takeWhile, hd]
  | cons c t iht =>
    have hc : p c = true := h c (by simp)
    simp [List.takeWhile, hc, iht (fun x hx => h x (by simp [hx]))]

theorem dropWhile_append_of (p : Char → Bool) (l : List Char) (d : Char)
    (r : List Char) (h : ∀ c ∈ l, p c = true) (hd : p d = false) :
    (l ++ d :: r).dropWhile p = d :: r := by
  induction l with
  | nil => simp [List.dropWhile, hd]
  | cons c t iht =>
    have hc : p c = true := h c (by simp)
    simp [List.dropWhile, hc, iht (fun x hx => h x (by simp [hx]))]

theorem findDataAux_nil (f : Nat) : findDataAux f [] = [] := by
  cases f <;> rfl

/-- A valid token name: a non-empty run of `[A-Za-z_]`. -/
def validName (s : String) : Prop :=
  s.data ≠ [] ∧ ∀ c ∈ s.data, isNameChar c = true

instance (s : String) : Decidable (validName s) := by
  unfold validName; infer_instance

theorem data_append (a b : String) : (a ++ b).data = a.data ++ b.data := rfl

/-- On a string that is exactly one variable reference, `findall`
returns exactly the referenced name. -/
theorem re_data_findall_single (name : String) (h : validName name) :
    re_data_findall ("\x7b" ++ name ++ "\x7d") = [name] := by
  obtain ⟨hne, hall⟩ := h
  have hdata : ("\x7b" ++ name ++ "\x7d").data =
      '\x7b' :: (name.data ++ '\x7d' :: []) := by
    simp [data_append]
  unfold re_data_findall
  rw [hdata]
  have hlen : ('\x7b' :: (name.data ++ '\x7d' :: [])).length =
      name.data.length + 2 := by
    simp
  rw [hlen]
  show (findDataAux (name.data.length + 1 + 1) _).map String.mk = _
  unfold findDataAux
  simp only [beq_self_eq_true, if_pos]
  rw [takeWhile_append_of isNameChar name.data '\x7d' [] hall (by rfl),
      dropWhile_append_of isNameChar name.data '\x7d' [] hall (by rfl)]
  simp [hne, findDataAux_nil]

theorem replAux_nil (f : Nat) (pat rep : List Char) :
    replAux f [] pat rep = [] := by
  cases f <;> rfl

theorem isPrefixOf_rfl (l : List Char) : l.isPrefixOf l = true := by
  induction l with
  | nil => rfl
  | cons c t ih => simp [List.isPrefixOf, ih]

/-- Replacing a non-empty string by `rep` inside itself yields `rep`
(and the replacement text is not rescanned). -/
theorem strReplace_self (s rep : String) (h : s.data ≠ []) :
    strReplace s s rep = rep := by
  unfold strReplace
  obtain ⟨c, t, hct⟩ : ∃ c t, s.data = c :: t := by
    cases hd : s.data with
    | nil => exact absurd hd h
    | cons c t => exact ⟨c, t, rfl⟩
  rw [hct, List.length_cons]
  simp only [replAux]
  rw [if_pos ⟨by simp, isPrefixOf_rfl _⟩]
  simp [replAux_nil]

/-- Rendering content in which none of the three scanners finds a token
is the identity (`__init__.py` iteration). -/
theorem token_free_generate_content (content : String) (b : Bindings)
    (h1 : re_data_findall content = [])
    (h2 : re_if_else_finditer content = []) :
    generate_content content b = .ok content := by
  have hv : generate_content_vars content b = content := by
    unfold generate_content_vars; rw [h1]; rfl
  simp only [generate_content, hv, h2]
  rfl

/-- Rendering token-free content is the identity (`service.py`
iteration). -/
theorem token_free_srv_generate_content (content : String) (b : Bindings)
    (h1 : re_data_findall content = [])
    (h2 : re_if_else_finditer content = []) :
    srv_generate_content content b = .ok content := by
  have hv : srv_generate_content_vars content b = content := by
    unfold srv_generate_content_vars; rw [h1]; rfl
  simp only [srv_generate_content, hv, h2]
  rfl

theorem collect_insert_mem (l acc : List String) (x : String) :
    x ∈ collect_insert acc l ↔ x ∈ acc ∨ x ∈ l := by
  induction l generalizing acc with
  | nil => simp [collect_insert]
  | cons y t ih =>
    simp only [collect_insert, ih]
    by_cases hy : acc.contains y = true
    · have : y ∈ acc := List.elem_iff.mp hy
      simp only [hy, if_pos]
      simp only [List.mem_cons]
      constructor
      · rintro (h | h)
        · exact Or.inl h
        · exact Or.inr (Or.inr h)
      · rintro (h | h | h)
        · exact Or.inl h
        · exact Or.inl (h ▸ this)
        · exact Or.inr h
    · simp only [hy, if_neg, Bool.false_eq_true, not_false_iff, if_false]
      simp only [List.mem_append, List.mem_singleton, List.mem_cons]
      tauto

theorem collect_insert_nodup (l acc : List String) (h : acc.Nodup) :
    (collect_insert acc l).Nodup := by
  induction l generalizing acc with
  | nil => exact h
  | cons y t ih =>
    simp only [collect_insert]
    by_cases hy : acc.contains y = true
    · simp only [hy, if_pos]
      exact ih acc h
    · simp only [hy, Bool.false_eq_true, if_false]
      refine ih _ ?_
      have hny : y ∉ acc := fun hm => hy (List.elem_iff.mpr hm)
      simp [List.nodup_append, h, hny]

/-- Content of one of the scanned fields references template `t`. -/
def references_template (content : List (String × String)) (names : List String)
    (t : String) : Prop :=
  ∃ k, k ∈ names ∧ ∃ text, content.lookup k = some text ∧ t ∈ re_tpl_findall text

/-- Content of one of the scanned fields references variable `v`. -/
def references_variable (content : List (String × String)) (names : List String)
    (v : String) : Prop :=
  ∃ k, k ∈ names ∧ ∃ text, content.lookup k = some text ∧ v ∈ re_data_findall text

theorem collectRefs_mem_fst (content : List (String × String)) :
    ∀ (names : List String) (acc : List String × List String) (t : String),
    t ∈ (collectRefs content names acc).1 ↔
      t ∈ acc.1 ∨ references_template content names t := by
  intro names
  induction names with
  | nil => simp [collectRefs, references_template]
  | cons k rest ih =>
    intro acc t
    have hsplit : references_template content (k :: rest) t ↔
        (∃ text, content.lookup k = some text ∧ t ∈ re_tpl_findall text) ∨
        references_template content rest t := by
      simp only [references_template, List.mem_cons]
      constructor
      · rintro ⟨k', (rfl | hk'), w⟩
        · exact Or.inl w
        · exact Or.inr ⟨k', hk', w⟩
      · rintro (w | ⟨k', hk', w⟩)
        · exact ⟨k, Or.inl rfl, w⟩
        · exact ⟨k', Or.inr hk', w⟩
    cases hk : content.lookup k with
    | none =>
      simp only [collectRefs, hk, ih, hsplit]
      constructor
      · rintro (h | h)
        · exact Or.inl h
        · exact Or.inr (Or.inr h)
      · rintro (h | ⟨text, htext, _⟩ | h)
        · exact Or.inl h
        · exact absurd htext (by simp [hk])
        · exact Or.inr h
    | some text =>
      simp only [collectRefs, hk, ih, hsplit, collect_insert_mem]
      constructor
      · rintro ((h | h) | h)
        · exact Or.inl h
        · exact Or.inr (Or.inl ⟨text, rfl, h⟩)
        · exact Or.inr (Or.inr h)
      · rintro (h | ⟨text', htext', hmem⟩ | h)
        · exact Or.inl (Or.inl h)
        · cases Option.some.inj htext'
          exact Or.inl (Or.inr hmem)
        · exact Or.inr h

theorem collectRefs_mem_snd (content : List (String × String)) :
    ∀ (names : List String) (acc : List String × List String) (v : String),
    v ∈ (collectRefs content names acc).2 ↔
      v ∈ acc.2 ∨ references_variable content names v := by
  intro names
  induction names with
  | nil => simp [collectRefs, references_variable]
  | cons k rest ih =>
    intro acc v
    have hsplit : references_variable content (k :: rest) v ↔
        (∃ text, content.lookup k = some text ∧ v ∈ re_data_findall text) ∨
        references_variable content rest v := by
      simp only [references_variable, List.mem_cons]
      constructor
      · rintro ⟨k', (rfl | hk'), w⟩
        · exact Or.inl w
        · exact Or.inr ⟨k', hk', w⟩
      · rintro (w | ⟨k', hk', w⟩)
        · exact ⟨k, Or.inl rfl, w⟩
        · exact ⟨k', Or.inr hk', w⟩
    cases hk : content.lookup k with
    | none =>
      simp only [collectRefs, hk, ih, hsplit]
      constructor
      · rintro (h | h)
        · exact Or.inl h
        · exact Or.inr (Or.inr h)
      · rintro (h | ⟨text, htext, _⟩ | h)
        · exact Or.inl h
        · exact absurd htext (by simp [hk])
        · exact Or.inr h
    | some text =>
      simp only [collectRefs, hk, ih, hsplit, collect_insert_mem]
      constructor
      · rintro ((h | h) | h)
        · exact Or.inl h
        · exact Or.inr (Or.inl ⟨text, rfl, h⟩)
        · exact Or.inr (Or.inr h)
      · rintro (h | ⟨text', htext', hmem⟩ | h)
        · exact Or.inl (Or.inl h)
        · cases Option.some.inj htext'
          exact Or.inl (Or.inr hmem)
        · exact Or.inr h

theorem collectRefs_nodup (content : List (String × String)) :
    ∀ (names : List String) (acc : List String × List String),
    acc.1.Nodup → acc.2.Nodup →
    (collectRefs content names acc).1.Nodup ∧ (collectRefs content names acc).2.Nodup := by
  intro names
  induction names with
  | nil => exact fun acc h1 h2 => ⟨h1, h2⟩
  | cons k rest ih =>
    intro acc h1 h2
    cases hk : content.lookup k with
    | none => simpa [collectRefs, hk] using ih acc h1 h2
    | some text =>
      simp only [collectRefs, hk]
      exact ih _ (collect_insert_nodup _ _ h1) (collect_insert_nodup _ _ h2)

theorem length_filter_eq_iff (l : List String) (p : String → Bool) :
    (l.filter p).length = l.length ↔ ∀ a ∈ l, p a = true := by
  induction l with
  | nil => simp
  | cons a t ih =>
    cases ha : p a with
    | true => simp [List.filter_cons, ha, ih]
    | false =>
      constructor
      · intro h
        exfalso
        have hle := List.length_filter_le p t
        simp [List.filter_cons, ha] at h
        omega
      · intro h
        have hc := h a (by simp)
        simp [ha] at hc

theorem template_errors_mem (store lsT : List String) (t : String) :
    ("template", t) ∈ template_errors store lsT ↔ t ∈ lsT ∧ t ∉ store := by
  unfold template_errors
  by_cases h0 : lsT = []
  · simp [h0]
  · rw [if_neg h0]
    by_cases hlen : (lsT.filter (fun s => store.contains s)).length ≠ lsT.length
    · rw [if_pos hlen]
      constructor
      · intro h
        obtain ⟨s, hsf, heq⟩ := List.mem_map.mp h
        obtain ⟨hs, hp⟩ := List.mem_filter.mp hsf
        cases congrArg Prod.snd heq
        refine ⟨hs, fun hmem => ?_⟩
        have hc : (lsT.filter (fun s => store.contains s)).contains t = true :=
          List.elem_iff.mpr (List.mem_filter.mpr ⟨hs, List.elem_iff.mpr hmem⟩)
        rw [hc] at hp
        exact Bool.noConfusion hp
      · rintro ⟨hs, hns⟩
        refine List.mem_map.mpr ⟨t, List.mem_filter.mpr ⟨hs, ?_⟩, rfl⟩
        cases hcb : (lsT.filter (fun s => store.contains s)).contains t with
        | false => rfl
        | true =>
          obtain ⟨_, hp⟩ := List.mem_filter.mp (List.elem_iff.mp hcb)
          exact absurd (List.elem_iff.mp hp) hns
    · rw [if_neg hlen]
      push_neg at hlen
      have hall := (length_filter_eq_iff lsT (fun s => store.contains s)).mp hlen
      simp only [List.not_mem_nil, false_iff]
      rintro ⟨hs, hns⟩
      exact hns (List.elem_iff.mp (hall t hs))

theorem template_errors_fst (store lsT : List String) (p : String × String)
    (h : p ∈ template_errors store lsT) : p.1 = "template" := by
  unfold template_errors at h
  by_cases h0 : lsT = []
  · simp [h0] at h
  · rw [if_neg h0] at h
    by_cases hlen : (lsT.filter (fun s => store.contains s)).length ≠ lsT.length
    · rw [if_pos hlen] at h
      obtain ⟨s, _, heq⟩ := List.mem_map.mp h
      rw [← heq]
    · rw [if_neg hlen] at h
      simp at h

theorem template_errors_nodup (store lsT : List String) (hnd : lsT.Nodup) :
    (template_errors store lsT).Nodup := by
  unfold template_errors
  by_cases h0 : lsT = []
  · simp [h0]
  · rw [if_neg h0]
    by_cases hlen : (lsT.filter (fun s => store.contains s)).length ≠ lsT.length
    · rw [if_pos hlen]
      refine List.Nodup.map ?_ (hnd.filter _)
      intro a b hab
      exact congrArg Prod.snd hab
    · rw [if_neg hlen]
      exact List.nodup_nil

theorem variable_errors_mem (vars lsV : List String) (v : String) :
    ("variable", v) ∈ variable_errors vars lsV ↔ v ∈ lsV ∧ v ∉ vars := by
  unfold variable_errors
  by_cases h0 : lsV = []
  · simp [h0]
  · rw [if_neg h0]
    constructor
    · intro h
      obtain ⟨s, hsf, heq⟩ := List.mem_map.mp h
      obtain ⟨hs, hp⟩ := List.mem_filter.mp hsf
      cases congrArg Prod.snd heq
      refine ⟨hs, fun hmem => ?_⟩
      have hc : vars.contains v = true := List.elem_iff.mpr hmem
      rw [hc] at hp
      exact Bool.noConfusion hp
    · rintro ⟨hs, hns⟩
      refine List.mem_map.mpr ⟨v, List.mem_filter.mpr ⟨hs, ?_⟩, rfl⟩
      cases hcb : vars.contains v with
      | false => rfl
      | true => exact absurd (List.elem_iff.mp hcb) hns

theorem variable_errors_fst (vars lsV : List String) (p : String × String)
    (h : p ∈ variable_errors vars lsV) : p.1 = "variable" := by
  unfold variable_errors at h
  by_cases h0 : lsV = []
  · simp [h0] at h
  · rw [if_neg h0] at h
    obtain ⟨s, _, heq⟩ := List.mem_map.mp h
    rw [← heq]

theorem variable_errors_nodup (vars lsV : List String) (hnd : lsV.Nodup) :
    (variable_errors vars lsV).Nodup := by
  unfold variable_errors
  by_cases h0 : lsV = []
  · simp [h0]
  · rw [if_neg h0]
    refine List.Nodup.map ?_ (hnd.filter _)
    intro a b hab
    exact congrArg Prod.snd hab


/-- A store holding one SMS template `loop` whose `en-US` content is
`#loop#` — the self-referential template of spec section 8. -/
def loopStore : Store where
  tplId := fun s => if s = "loop" then some 0 else none
  smsContent := fun i l => if i = 0 ∧ l = "en-US" then some "#loop#" else none

/-- A store with no templates at all. -/
def ghostStore : Store where
  tplId := fun _ => none
  smsContent := fun _ _ => none

/-- A store holding template `greet` with no content in any locale. -/
def greetStore : Store where
  tplId := fun s => if s = "greet" then some 7 else none
  smsContent := fun _ _ => none

/-- A `service.py` store with no templates at all. -/
def ghostSrvStore : SrvStore where
  tpl := fun _ => none

/-- C1: A missing variable, missing template or missing locale content
is turned into an inline marker naming the offender, and rendering of
the surrounding content continues — by `__init__.py`'s `_generate_sms`
and `_generate_content`; but `service.py`'s `_generate_email` raises
`TypeError` while building the missing-template marker
(`'!!!#%s.%s#!!!' % sTpl`, line 303: two placeholders, one argument),
so there the missing-template condition aborts the whole render. -/
theorem c1_missing_conditions :
    srv_generate_email 1 ghostSrvStore "en-US" []
      { subject := some "#ghost#", text := some "", html := some "" } [] =
      .error .fmtError ∧
    generate_sms 1 ghostStore "en-US" [] "#ghost#" [] =
      .ok ("!!!#ghost# does not exist!!!",
        [("ghost", "!!!#ghost# does not exist!!!")]) ∧
    generate_sms 1 greetStore "fr-FR" [] "xx #greet# yy" [] =
      .ok ("xx !!!#greet.fr-FR# does not exist!!! yy",
        [("greet", "!!!#greet.fr-FR# does not exist!!!")]) ∧
    generate_content "Hello \x7bname\x7d!" [] =
      .ok "Hello !!!\x7bname\x7d does not exist!!!!" :=
  ⟨rfl, rfl, rfl, rfl⟩

/-- C2 (counterexample): rendering the self-referential template `loop`
with a stack budget of 50 — far above any claimed cap of about 10 —
still exhausts the stack and never produces a circular-reference
marker. -/
theorem c2_loop_depth_50 :
    generate_sms 50 loopStore "en-US" [] "#loop#" [] =
      .error .recursionLimit := by
  decide

/-- C2 (amended): rendering the self-referential template never
terminates with a result: for every stack budget the render re-enters
`loop` with an unchanged cache (the cache entry is stored only after
the recursive call returns) until the stack is exhausted; the source
has no depth cap, no visited set and no circular-reference marker. -/
theorem c2_loop_unbounded :
    ∀ n, generate_sms n loopStore "en-US" [] "#loop#" [] =
      .error .recursionLimit := by
  intro n
  induction n with
  | zero => rfl
  | succ n ih =>
    have h1 : loopStore.tplId "loop" = some 0 := rfl
    have h2 : loopStore.smsContent 0 "en-US" = some "#loop#" := rfl
    simp only [generate_sms]
    rw [show re_tpl_findall "#loop#" = ["loop"] from rfl]
    simp only [sms_tpl_loop, List.lookup, h1, h2, ih]
    rfl

/-- C3 (counterexample): with `age` bound to the number 18, the block
`[if age ge 18]Adult[else]Minor[fi]` does not render to `"Adult"`: the
source's operator alternation is `==|<|<=|>|>=|!=`, so the word
operator `ge` is not matched at all and the block is emitted
verbatim. -/
theorem c3_word_operator_verbatim :
    generate_content "[if age ge 18]Adult[else]Minor[fi]"
      [("age", PyValue.int 18)] =
      .ok "[if age ge 18]Adult[else]Minor[fi]" ∧
    generate_content "[if age ge 18]Adult[else]Minor[fi]"
      [("age", PyValue.int 18)] ≠ .ok "Adult" := by
  exact ⟨rfl, by decide⟩

/-- C3 (amended): the conditional grammar's operator tokens are `==`,
`!=`, `<`, `<=`, `>`, `>=`; a block written with the word operator `ge`
is not recognized and passes through verbatim for every binding map,
and a block with the recognized `>=` parses but raises `AttributeError`
before any comparison is applied, because the dispatch constants
`COND_TYPE`/`COND_IF_CONTENT`/`COND_ELSE_CONTENT` (and the name
`iGroups`) are undefined in `__init__.py`. -/
theorem c3_operator_grammar :
    (∀ b : Bindings,
      generate_content "[if age ge 18]Adult[else]Minor[fi]" b =
        .ok "[if age ge 18]Adult[else]Minor[fi]") ∧
    (∀ (b : Bindings) (n : Int), b.lookup "age" = some (.int n) →
      generate_content "[if age >= 18]Adult[else]Minor[fi]" b =
        .error .condAttr) := by
  constructor
  · intro b
    exact token_free_generate_content _ b rfl rfl
  · intro b n h
    have hv : generate_content_vars "[if age >= 18]Adult[else]Minor[fi]" b =
        "[if age >= 18]Adult[else]Minor[fi]" := by
      unfold generate_content_vars
      rw [show re_data_findall "[if age >= 18]Adult[else]Minor[fi]" = []
        from rfl]
      rfl
    simp only [generate_content, hv]
    rw [show re_if_else_finditer "[if age >= 18]Adult[else]Minor[fi]" =
      [{ group0 := "[if age >= 18]Adult[else]Minor[fi]".data,
         name := "age".data, test := some ">=".data, value := some "18".data,
         ifContent := "Adult".data, elseContent := some "Minor".data }]
      from rfl]
    simp only [cond_loop, generate_content_cond_step]
    rw [show String.mk "age".data = "age" from rfl]
    rw [h]
    rfl

/-- C3 (witness for the amended theorem). -/
theorem c3_operator_grammar_witness :
    generate_content "[if age >= 18]Adult[else]Minor[fi]"
      [("age", PyValue.int 18)] = .error .condAttr :=
  c3_operator_grammar.2 [("age", PyValue.int 18)] 18 rfl

/-- C8: an ordering comparison against the `$NULL` literal does throw,
contradicting the spec's must-not-throw requirement: `__init__.py`
raises `AttributeError` (the undefined `COND_TYPE` is reached before
any comparison), and even `service.py`'s newer loop — with the
dispatch constants modelled as intended — raises `TypeError` from
Python 3's `5 < None`. -/
theorem c8_null_ordering_raises :
    generate_content "[if x < $NULL]A[else]B[fi]" [("x", PyValue.int 5)] =
      .error .condAttr ∧
    srv_generate_content "[if x < $NULL]A[else]B[fi]" [("x", PyValue.int 5)] =
      .error .typeError :=
  ⟨rfl, rfl⟩

/-- `Except.ok x >>= k` computes to `k x`. -/
theorem except_bind_ok {a b : Type} (x : a) (k : a → Except Err b) :
    (Except.ok x >>= k) = k x := rfl

/-- Content in which none of the three scanners finds a token. -/
def token_free (s : String) : Prop :=
  re_data_findall s = [] ∧ re_tpl_findall s = [] ∧ re_if_else_finditer s = []

/-- The variable pass on a string that is exactly one reference
substitutes the bound value's `str()` form, or the missing marker when
the name is unbound or the `str()` form is empty (the `and-or`
idiom). -/
theorem generate_content_vars_single (name : String) (b : Bindings)
    (h : validName name) :
    generate_content_vars ("\x7b" ++ name ++ "\x7d") b =
      (match b.lookup name with
       | some v => if pyStr v == "" then missing_var_marker name else pyStr v
       | none => missing_var_marker name) := by
  unfold generate_content_vars
  rw [re_data_findall_single name h]
  simp only [vars_loop]
  exact strReplace_self _ _ (by simp [data_append])

/-- C4 (counterexample): a boolean binding substitutes Python's
capitalized `"True"`, not the claimed natural form `"true"`; and a
present binding whose value is the empty string substitutes the
missing-variable marker even though the name is bound. -/
theorem c4_boolean_and_empty_value :
    generate_content_vars "\x7bx\x7d" [("x", PyValue.bool true)] = "True" ∧
    ("True" : String) ≠ "true" ∧
    generate_content_vars "\x7bx\x7d" [("x", PyValue.str "")] =
      "!!!\x7bx\x7d does not exist!!!" :=
  ⟨rfl, by decide, rfl⟩

/-- C4 (amended): for every variable reference `{name}`: a bound value
is replaced by its Python `str()` form (`"True"`/`"False"` for
booleans, decimal for numbers, the string itself otherwise) unless that
form is the empty string, in which case — like an unbound name — the
marker `!!!{name} does not exist!!!` is substituted; every occurrence
is replaced and the pass never raises. -/
theorem c4_substitution :
    (∀ (name : String) (b : Bindings), validName name →
      (∀ v, b.lookup name = some v → pyStr v ≠ "" →
        generate_content_vars ("\x7b" ++ name ++ "\x7d") b = pyStr v) ∧
      (∀ v, b.lookup name = some v → pyStr v = "" →
        generate_content_vars ("\x7b" ++ name ++ "\x7d") b =
          missing_var_marker name) ∧
      (b.lookup name = none →
        generate_content_vars ("\x7b" ++ name ++ "\x7d") b =
          missing_var_marker name)) ∧
    generate_content_vars "\x7bx\x7d=\x7bx\x7d" [("x", PyValue.int 7)] =
      "7=7" := by
  constructor
  · intro name b hv
    have hs := generate_content_vars_single name b hv
    refine ⟨fun v hl hne => ?_, fun v hl he => ?_, fun hl => ?_⟩
    · rw [hs, hl]
      simp [hne]
    · rw [hs, hl]
      simp [he]
    · rw [hs, hl]
  · rfl

/-- C4 (witness). -/
theorem c4_substitution_witness :
    generate_content_vars "\x7bx\x7d" [("x", PyValue.str "Bob")] = "Bob" :=
  (c4_substitution.1 "x" [("x", PyValue.str "Bob")] (by decide)).1
    (PyValue.str "Bob") rfl (by decide)

/-- C5: the validator returns exactly one `(template, name)` violation
per distinct referenced template absent from the store, exactly one
`(variable, name)` per distinct referenced variable outside the
declared set, nothing else; it is empty exactly when all references
resolve; and on the spec's concrete example the violations are exactly
`(variable, extra)` and `(template, nope)`, order insignificant.  (The
function is a pure computation: it mutates nothing and raises
nothing.) -/
theorem c5_validator : (∀ (store : List String)
      (content : List (String × String)) (names vs : List String),
    (∀ t, ("template", t) ∈ checkTemplateContent store content names vs ↔
        (references_template content names t ∧ t ∉ store)) ∧
    (∀ v, ("variable", v) ∈ checkTemplateContent store content names vs ↔
        (references_variable content names v ∧ v ∉ vs)) ∧
    (∀ p, p ∈ checkTemplateContent store content names vs →
        p.1 = "template" ∨ p.1 = "variable") ∧
    (checkTemplateContent store content names vs).Nodup ∧
    (checkTemplateContent store content names vs = [] ↔
      (∀ t, references_template content names t → t ∈ store) ∧
      (∀ v, references_variable content names v → v ∈ vs))) ∧
    (checkTemplateContent [] [("content", "Hi \x7bname\x7d \x7bextra\x7d #nope#")]
      ["content"] ["name"]).Perm [("variable", "extra"), ("template", "nope")] := by
  constructor
  · intro store content names vs
    have hT : ∀ t, t ∈ (collectRefs content names ([], [])).1 ↔
        references_template content names t := by
      intro t
      simpa using collectRefs_mem_fst content names ([], []) t
    have hV : ∀ v, v ∈ (collectRefs content names ([], [])).2 ↔
        references_variable content names v := by
      intro v
      simpa using collectRefs_mem_snd content names ([], []) v
    obtain ⟨hnd1, hnd2⟩ :=
      collectRefs_nodup content names ([], []) List.nodup_nil List.nodup_nil
    unfold checkTemplateContent
    refine ⟨?_, ?_, ?_, ?_, ?_⟩
    · intro t
      rw [List.mem_append]
      constructor
      · rintro (h | h)
        · obtain ⟨hm, hs⟩ := (template_errors_mem _ _ _).mp h
          exact ⟨(hT t).mp hm, hs⟩
        · exact absurd (variable_errors_fst _ _ _ h) (by simp)
      · rintro ⟨href, hns⟩
        exact Or.inl ((template_errors_mem _ _ _).mpr ⟨(hT t).mpr href, hns⟩)
    · intro v
      rw [List.mem_append]
      constructor
      · rintro (h | h)
        · exact absurd (template_errors_fst _ _ _ h) (by simp)
        · obtain ⟨hm, hs⟩ := (variable_errors_mem _ _ _).mp h
          exact ⟨(hV v).mp hm, hs⟩
      · rintro ⟨href, hns⟩
        exact Or.inr ((variable_errors_mem _ _ _).mpr ⟨(hV v).mpr href, hns⟩)
    · intro p hp
      rcases List.mem_append.mp hp with h | h
      · exact Or.inl (template_errors_fst _ _ _ h)
      · exact Or.inr (variable_errors_fst _ _ _ h)
    · refine List.Nodup.append (template_errors_nodup _ _ hnd1)
        (variable_errors_nodup _ _ hnd2) ?_
      intro a h1 h2
      exact absurd ((template_errors_fst _ _ _ h1).symm.trans
        (variable_errors_fst _ _ _ h2)) (by decide)
    · rw [List.append_eq_nil]
      constructor
      · rintro ⟨h1, h2⟩
        constructor
        · intro t href
          by_contra hns
          have := (template_errors_mem store _ t).mpr ⟨(hT t).mpr href, hns⟩
          rw [h1] at this
          exact List.not_mem_nil _ this
        · intro v href
          by_contra hns
          have := (variable_errors_mem vs _ v).mpr ⟨(hV v).mpr href, hns⟩
          rw [h2] at this
          exact List.not_mem_nil _ this
      · rintro ⟨h1, h2⟩
        constructor
        · rw [List.eq_nil_iff_forall_not_mem]
          rintro ⟨k, nm⟩ hp
          cases template_errors_fst _ _ _ hp
          obtain ⟨hm, hns⟩ := (template_errors_mem _ _ _).mp hp
          exact hns (h1 nm ((hT nm).mp hm))
        · rw [List.eq_nil_iff_forall_not_mem]
          rintro ⟨k, nm⟩ hp
          cases variable_errors_fst _ _ _ hp
          obtain ⟨hm, hns⟩ := (variable_errors_mem _ _ _).mp hp
          exact hns (h2 nm ((hV nm).mp hm))
  · decide

/-- C5 (witness). -/
theorem c5_validator_witness :
    ("template", "nope") ∈ checkTemplateContent []
      [("content", "Hi \x7bname\x7d \x7bextra\x7d #nope#")] ["content"]
      ["name"] :=
  ((c5_validator.1 [] [("content", "Hi \x7bname\x7d \x7bextra\x7d #nope#")]
      ["content"] ["name"]).1 "nope").mpr
    ⟨⟨"content", by decide, "Hi \x7bname\x7d \x7bextra\x7d #nope#", rfl,
      by decide⟩, by decide⟩

/-- C6: content in which the scanners find no variable reference, no
conditional block and no embedded template reference renders to itself,
verbatim, through `_generate_content` of both source iterations and
through `_generate_sms`. -/
theorem c6_token_free_identity : ∀ (content : String) (b : Bindings),
    re_data_findall content = [] → re_if_else_finditer content = [] →
    generate_content content b = .ok content ∧
    srv_generate_content content b = .ok content ∧
    (re_tpl_findall content = [] → ∀ (fuel : Nat) (store : Store)
      (locale : String) (templates : List (String × String)),
      generate_sms (fuel + 1) store locale b content templates =
        .ok (content, templates)) := by
  intro content b h1 h2
  have hg := token_free_generate_content content b h1 h2
  refine ⟨hg, token_free_srv_generate_content content b h1 h2, ?_⟩
  intro h3 fuel store locale templates
  simp only [generate_sms]
  rw [h3]
  simp only [sms_tpl_loop]
  show (do
    let c ← generate_content content b
    Except.ok (c, templates) : Except Err (String × List (String × String))) =
    .ok (content, templates)
  rw [hg]
  rfl

/-- C6 (witness). -/
theorem c6_token_free_identity_witness :
    generate_sms 1 ghostStore "en-US" [] "Hello, world." [] =
      .ok ("Hello, world.", []) :=
  (c6_token_free_identity "Hello, world." [] rfl rfl).2.2 rfl 0 ghostStore
    "en-US" []

/-- C7: an operator-free conditional outputs the consequent exactly
when the named variable is bound to a truthy value (non-empty string,
non-zero number, `true`; `null` is falsy), and otherwise the alternate,
or the empty string when there is no else clause — for every binding
map. -/
theorem c7_conditional_truthiness : ∀ (b : Bindings),
    (∀ v, b.lookup "flag" = some v →
      generate_content "[if flag]A[else]B[fi]" b =
        .ok (if truthy v then "A" else "B") ∧
      generate_content "[if flag]A[fi]" b =
        .ok (if truthy v then "A" else "")) ∧
    (b.lookup "flag" = none →
      generate_content "[if flag]A[else]B[fi]" b = .ok "B" ∧
      generate_content "[if flag]A[fi]" b = .ok "") := by
  intro b
  have hv1 : generate_content_vars "[if flag]A[else]B[fi]" b =
      "[if flag]A[else]B[fi]" := by
    unfold generate_content_vars
    rw [show re_data_findall "[if flag]A[else]B[fi]" = [] from rfl]
    rfl
  have hv2 : generate_content_vars "[if flag]A[fi]" b = "[if flag]A[fi]" := by
    unfold generate_content_vars
    rw [show re_data_findall "[if flag]A[fi]" = [] from rfl]
    rfl
  simp only [generate_content, hv1, hv2]
  rw [show re_if_else_finditer "[if flag]A[else]B[fi]" =
    [{ group0 := "[if flag]A[else]B[fi]".data, name := "flag".data,
       test := none, value := none, ifContent := "A".data,
       elseContent := some "B".data }] from rfl]
  rw [show re_if_else_finditer "[if flag]A[fi]" =
    [{ group0 := "[if flag]A[fi]".data, name := "flag".data, test := none,
       value := none, ifContent := "A".data, elseContent := none }] from rfl]
  simp only [cond_loop, generate_content_cond_step]
  rw [show String.mk "flag".data = "flag" from rfl]
  refine ⟨fun v hl => ?_, fun hl => ?_⟩
  · rw [hl]
    cases htv : truthy v <;> simp [htv] <;> exact ⟨rfl, rfl⟩
  · rw [hl]
    exact ⟨rfl, rfl⟩

/-- C7 (witness). -/
theorem c7_conditional_truthiness_witness :
    generate_content "[if flag]A[else]B[fi]" [("flag", PyValue.bool true)] =
      .ok "A" :=
  ((c7_conditional_truthiness [("flag", PyValue.bool true)]).1
    (PyValue.bool true) rfl).1

/-- C9 (counterexample): two binding maps differing only in the textual
content of the value bound to `v` produce different conditional token
matches — the value substituted for `{v}` is re-scanned and evaluated
as a conditional block. -/
theorem c9_rescan_counterexample :
    generate_content "\x7bv\x7d"
      [("v", PyValue.str "[if f]A[else]B[fi]"), ("f", PyValue.int 1)] =
      .ok "A" ∧
    generate_content "\x7bv\x7d"
      [("v", PyValue.str "hello"), ("f", PyValue.int 1)] = .ok "hello" ∧
    re_if_else_finditer (generate_content_vars "\x7bv\x7d"
      [("v", PyValue.str "[if f]A[else]B[fi]"), ("f", PyValue.int 1)]) ≠
    re_if_else_finditer (generate_content_vars "\x7bv\x7d"
      [("v", PyValue.str "hello"), ("f", PyValue.int 1)]) :=
  ⟨rfl, rfl, by decide⟩

/-- C9 (amended): matching does cross replacements: the conditional
pass scans the post-substitution text, so for a text that is exactly
`{v}` the conditional matcher runs on whatever string was bound to `v`
(including conditional or further token syntax); only the variable-name
scan list itself is computed from the original text. -/
theorem c9_substituted_value_rescanned : ∀ (payload : String) (b : Bindings),
    b.lookup "v" = some (.str payload) → payload ≠ "" →
    generate_content_vars "\x7bv\x7d" b = payload ∧
    generate_content "\x7bv\x7d" b =
      cond_loop (generate_content_cond_step b)
        (re_if_else_finditer payload) payload := by
  intro payload b hl hp
  have hsub : generate_content_vars "\x7bv\x7d" b = payload := by
    have hs := generate_content_vars_single "v" b (by decide)
    rw [hl] at hs
    simpa [pyStr, hp] using hs
  refine ⟨hsub, ?_⟩
  unfold generate_content
  rw [hsub]

/-- C9 (witness for the amended theorem). -/
theorem c9_substituted_value_rescanned_witness :
    generate_content_vars "\x7bv\x7d"
      [("v", PyValue.str "[if f]A[else]B[fi]"), ("f", PyValue.int 1)] =
      "[if f]A[else]B[fi]" :=
  (c9_substituted_value_rescanned "[if f]A[else]B[fi]"
    [("v", PyValue.str "[if f]A[else]B[fi]"), ("f", PyValue.int 1)] rfl
    (by decide)).1

/-- A `service.py` store holding template `greet` with full `en-US`
email content. -/
def greetSrvStore : SrvStore where
  tpl := fun s =>
    if s = "greet" then
      some { locales := fun l =>
        if l = "en-US" then
          some { subject := some "S", text := some "T", html := some "H",
                 sms := none }
        else none }
    else none

/-- C10 (counterexample): a content map lacking `text` CAN make
`service.py`'s `_generate_email` raise, so a missing field is not
always recovered by a marker.  With `subject = '#greet#'` and `greet`
resolvable, the inner fill loop (`service.py:326`) clobbers the field
variable `s` to `'text'` and the following
`dContent[s].replace(...)` reads the absent `'text'` key — `KeyError`;
with `subject = '#ghost#'` and no such template, the malformed
missing-template marker (`service.py:303`) raises `TypeError` first.
In both runs the render aborts before the `text` field is ever set to
its marker. -/
theorem c10_missing_field_raises :
    srv_generate_email 2 greetSrvStore "en-US" []
      { subject := some "#greet#", text := none, html := some "" } [] =
      .error .keyError ∧
    srv_generate_email 1 ghostSrvStore "en-US" []
      { subject := some "#ghost#", text := none, html := some "" } [] =
      .error .fmtError :=
  ⟨rfl, rfl⟩

/-- C10 (amended): setting an absent field to `'!!!<field> missing!!!'`
and skipping it never itself raises, and whenever the scanners find no
tokens in the present fields (in particular when every field is
missing) the render returns with the markers in place and the present
fields unaffected; but the render of a content map with a field absent
can still raise through the present fields — the clobbered-loop-variable
`KeyError` and the missing-template `TypeError` of the counterexample —
in which case the absent field never receives its marker. -/
theorem c10_missing_email_fields : ∀ (fuel : Nat) (store : SrvStore)
    (locale : String) (b : Bindings) (t h : String)
    (templates : List (String × EmailDict)),
    token_free t → token_free h →
    (srv_generate_email (fuel + 1) store locale b
      { subject := none, text := some t, html := some h } templates =
      .ok ({ subject := some "!!!subject missing!!!", text := some t,
             html := some h }, templates)) ∧
    (srv_generate_email (fuel + 1) store locale b
      { subject := some t, text := none, html := some h } templates =
      .ok ({ subject := some t, text := some "!!!text missing!!!",
             html := some h }, templates)) ∧
    (srv_generate_email (fuel + 1) store locale b
      { subject := some t, text := some h, html := none } templates =
      .ok ({ subject := some t, text := some h,
             html := some "!!!html missing!!!" }, templates)) ∧
    (srv_generate_email (fuel + 1) store locale b
      { subject := none, text := none, html := none } templates =
      .ok ({ subject := some "!!!subject missing!!!",
             text := some "!!!text missing!!!",
             html := some "!!!html missing!!!" }, templates)) := by
  intro fuel store locale b t h templates ht hh
  have hgt := token_free_srv_generate_content t b ht.1 ht.2.2
  have hgh := token_free_srv_generate_content h b hh.1 hh.2.2
  refine ⟨?_, ?_, ?_, ?_⟩ <;>
    simp only [srv_generate_email, email_field_loop, email_tpl_loop, dGet,
      dSet, except_bind_ok, ht.2.1, hh.2.1, hgt, hgh] <;> rfl

/-- C10 (witness for the amended theorem). -/
theorem c10_missing_email_fields_witness :
    srv_generate_email 1 ghostSrvStore "en-US" []
      { subject := none, text := some "T", html := some "H" } [] =
      .ok ({ subject := some "!!!subject missing!!!", text := some "T",
             html := some "H" }, []) :=
  (c10_missing_email_fields 0 ghostSrvStore "en-US" [] "T" "H" []
    ⟨rfl, rfl, rfl⟩ ⟨rfl, rfl, rfl⟩).1
